import Mathlib

/-!
Shallow embedding of `src/main.py` (a FastAPI façade over the Gmail and
Google Calendar APIs) together with theorems settling the frozen claims
about its request-transformation and response-normalization layer.

Python strings are modelled as Lean `String`s viewed through their list of
code points (`String.data`); Python `Optional`/`None` as `Option`;
exception-raising code as `Except String`; JSON dicts that reach the remote
API as explicit association lists or structures.
-/

/-! ## Python string primitives used by the source -/

/-- Models Python `str.lower()`: lowercase each code point (the data this
program lowers is ASCII header names and subjects, where `Char.toLower`
agrees with Python). -/
def pyLower (s : String) : String := String.mk (s.data.map Char.toLower)

/-- Models Python `s.startswith(p)`: the code points of `p` form a prefix of
those of `s`. -/
def pyStartsWith (s p : String) : Bool := p.data.isPrefixOf s.data

theorem string_data_append (a b : String) : (a ++ b).data = a.data ++ b.data := by
  cases a
  cases b
  rfl

/-! ## Reply subject derivation (main.py lines 161-164) -/

/-- Lines 161-164 of `main.py`: derive the outgoing reply subject from the
original message's snippet, prepending `"Re: "` unless the lowered text
already starts with `"re:"`. -/
def replySubject (s : String) : String :=
  if pyStartsWith (pyLower s) "re:" then s else "Re: " ++ s

theorem pyLower_re_append (s : String) :
    pyStartsWith (pyLower ("Re: " ++ s)) "re:" = true := by
  show List.isPrefixOf "re:".data (("Re: " ++ s).data.map Char.toLower) = true
  rw [string_data_append]
  have h1 : "Re: ".data = ['R', 'e', ':', ' '] := rfl
  have h2 : "re:".data = ['r', 'e', ':'] := rfl
  rw [h1, h2, List.map_append]
  simp [List.isPrefixOf]

/-- C8: the "Re: " subject-prefixing rule is idempotent: applying it twice
yields the same result as applying it once. -/
theorem replySubject_idempotent (s : String) :
    replySubject (replySubject s) = replySubject s := by
  unfold replySubject
  by_cases h : pyStartsWith (pyLower s) "re:"
  · simp [h]
  · simp only [h, Bool.false_eq_true, if_false, pyLower_re_append, if_true]

/-! ## Reply composition (main.py lines 137-188) -/

/-- Request body of `POST /emails/reply` (`ReplyRequest` pydantic model). -/
structure ReplyRequest where
  message_id : String
  toAddr : String
  body : String
  reply_all : Bool
  deriving DecidableEq

/-- The outgoing MIME message built in `reply_to_email` (lines 145-172).
The `from` header is named `fromEmail` because `from` is reserved in Lean. -/
structure OutgoingMessage where
  toAddr : String
  fromEmail : String
  subject : String
  body : String
  inReplyTo : String
  references : String
  deriving DecidableEq

/-- Lines 145-177 of `main.py`: compose the outgoing reply message from the
request and the fetched original message's snippet, and pair it with the
`threadId` put into the send body. -/
def composeReply (req : ReplyRequest) (snippet : String) : OutgoingMessage × String :=
  ({ toAddr := req.toAddr
     fromEmail := "me"
     subject := replySubject snippet
     body := req.body
     inReplyTo := req.message_id
     references := req.message_id },
   req.message_id)

/-- C4: the composed reply's subject is the original snippet, "Re: "-prefixed
exactly when the snippet does not already start with "re:" case-insensitively;
In-Reply-To and References both equal the request's message_id, as does the
threadId; in particular message_id "abc123" with snippet "meeting notes"
yields subject "Re: meeting notes" and threading headers "abc123". -/
theorem composeReply_spec (req : ReplyRequest) (snippet : String) :
    (composeReply req snippet).1.subject =
      (if pyStartsWith (pyLower snippet) "re:" then snippet else "Re: " ++ snippet) ∧
    (composeReply req snippet).1.inReplyTo = req.message_id ∧
    (composeReply req snippet).1.references = req.message_id ∧
    (composeReply req snippet).2 = req.message_id ∧
    (composeReply ⟨"abc123", "x@y.com", "Thanks", false⟩ "meeting notes").1.subject =
      "Re: meeting notes" ∧
    (composeReply ⟨"abc123", "x@y.com", "Thanks", false⟩ "meeting notes").1.inReplyTo =
      "abc123" ∧
    (composeReply ⟨"abc123", "x@y.com", "Thanks", false⟩ "meeting notes").1.references =
      "abc123" :=
  ⟨rfl, rfl, rfl, rfl, by decide, rfl, rfl⟩

/-- Result of a successful `messages().send(...).execute()` remote call. -/
structure SendResult where
  id : String
  deriving DecidableEq

/-- Lines 137-188 of `main.py`: the reply handler. `fetch` models
`messages().get(userId="me", id=...).execute()` delivering the original
message's snippet (or raising `HttpError`); `send` models
`messages().send(...).execute()` on the composed message and threadId.
The `except HttpError` clause returns `None` (line 186-188). -/
def replyToEmail (req : ReplyRequest)
    (fetch : Except String String)
    (send : OutgoingMessage → String → Except String SendResult) : Option SendResult :=
  match fetch with
  | .error _ => none
  | .ok snippet =>
    let composed := composeReply req snippet
    match send composed.1 composed.2 with
    | .error _ => none
    | .ok r => some r

/-- C6: whenever the remote API reports an error (on the fetch of the original
message or on the send), the reply operation swallows it and returns an empty
result (none); on success it returns the remote send result. -/
theorem replyToEmail_error_handling (req : ReplyRequest)
    (send : OutgoingMessage → String → Except String SendResult) :
    (∀ e, replyToEmail req (.error e) send = none) ∧
    (∀ snippet e,
        send (composeReply req snippet).1 (composeReply req snippet).2 = .error e →
        replyToEmail req (.ok snippet) send = none) ∧
    (∀ snippet r,
        send (composeReply req snippet).1 (composeReply req snippet).2 = .ok r →
        replyToEmail req (.ok snippet) send = some r) := by
  refine ⟨fun e => rfl, fun snippet e h => ?_, fun snippet r h => ?_⟩
  · simp [replyToEmail, h]
  · simp [replyToEmail, h]

theorem replyToEmail_error_handling_witness :
    replyToEmail ⟨"abc123", "x@y.com", "Thanks", false⟩ (.error "HttpError 500")
      (fun _ _ => .ok ⟨"id1"⟩) = none ∧
    replyToEmail ⟨"abc123", "x@y.com", "Thanks", false⟩ (.ok "meeting notes")
      (fun _ _ => .error "HttpError 500") = none ∧
    replyToEmail ⟨"abc123", "x@y.com", "Thanks", false⟩ (.ok "meeting notes")
      (fun _ _ => .ok ⟨"id1"⟩) = some ⟨"id1"⟩ :=
  ⟨(replyToEmail_error_handling _ _).1 "HttpError 500",
   (replyToEmail_error_handling _ _).2.1 "meeting notes" "HttpError 500" rfl,
   (replyToEmail_error_handling _ _).2.2 "meeting notes" ⟨"id1"⟩ rfl⟩

/-! ## Email listing query (main.py line 101) -/

/-- Truthiness of a Python `Optional[str]`: `None` and `""` are falsy. -/
def pyTruthyOptStr : Option String → Bool
  | none => false
  | some s => s ≠ ""

/-- Line 101 of `main.py`: the Gmail list query string,
`q=f"label:{label}" if label else ""`. -/
def getEmailsQuery (label : Option String) : String :=
  if pyTruthyOptStr label then "label:" ++ label.getD "" else ""

/-- C10: a label query parameter equal to the empty string produces the same
remote list query as an absent label, namely the empty query string. -/
theorem getEmailsQuery_empty_label :
    getEmailsQuery (some "") = getEmailsQuery none ∧ getEmailsQuery none = "" := by
  constructor <;> rfl

/-! ## Health check (main.py line 458) -/

/-- Public attributes of the `datetime` module bound by line 6
(`import datetime`): its classes and constants. There is no module-level
`now`; that is a classmethod of `datetime.datetime`. -/
def datetimeModuleAttrs : List String :=
  ["date", "time", "datetime", "timedelta", "timezone", "tzinfo",
   "MINYEAR", "MAXYEAR", "UTC"]

structure HealthResponse where
  status : String
  timestamp : String
  deriving DecidableEq

/-- Lines 455-458 of `main.py`: the health endpoint evaluates
`datetime.now().isoformat()`, i.e. looks up attribute "now" on the `datetime`
module object; a failed lookup raises AttributeError, which propagates out of
the handler. `nowIso` is what `.isoformat()` would return were the lookup to
succeed. -/
def health_check (nowIso : String) : Except String HealthResponse :=
  if "now" ∈ datetimeModuleAttrs then
    .ok { status := "healthy", timestamp := nowIso }
  else
    .error "AttributeError: module datetime has no attribute now"

/-- C9: the health endpoint never returns the healthy body; every invocation
raises AttributeError because line 6 imports the `datetime` module, which has
no attribute `now` (line 458 should read `datetime.datetime.now()`). -/
theorem health_check_always_fails (nowIso : String) :
    health_check nowIso = .error "AttributeError: module datetime has no attribute now" := by
  have h : "now" ∉ datetimeModuleAttrs := by decide
  simp [health_check, h]

/-! ## Calendar event update body (main.py lines 427-449) -/

/-- Pydantic `EventDateTime` model (lines 255-268); a field is `none` when the
client sent null or omitted it. -/
structure EventDateTime where
  date : Option String := none
  dateTime : Option String := none
  timeZone : Option String := none
  deriving DecidableEq

/-- Pydantic `CalendarEventUpdate` model (lines 293-304). The `end` field is
named `ending` because `end` is reserved in Lean. A field is `none` when the
request omitted it or sent null; either way it is dropped from the forwarded
body (omitted fields by `exclude_unset=True`, null ones by the
`if v is not None` filter on lines 431-435). -/
structure CalendarEventUpdate where
  start : Option EventDateTime := none
  ending : Option EventDateTime := none
  summary : Option String := none
  description : Option String := none
  location : Option String := none
  deriving DecidableEq

/-- A value in the JSON body forwarded to the remote update call. -/
inductive UpdateValue
  | edt : EventDateTime → UpdateValue
  | str : String → UpdateValue
  deriving DecidableEq

/-- Lines 431-435 of `main.py`: the dict comprehension building `update_dict`,
keeping only the non-null fields of the request, in model field order. -/
def update_calendar_event_body (u : CalendarEventUpdate) : List (String × UpdateValue) :=
  (u.start.map (fun v => ("start", UpdateValue.edt v))).toList ++
  (u.ending.map (fun v => ("end", UpdateValue.edt v))).toList ++
  (u.summary.map (fun v => ("summary", UpdateValue.str v))).toList ++
  (u.description.map (fun v => ("description", UpdateValue.str v))).toList ++
  (u.location.map (fun v => ("location", UpdateValue.str v))).toList

/-- C7: the body forwarded to the remote update call contains exactly the
request fields carrying non-null values and nothing else; in particular a
request setting only summary to "New Title" forwards solely that pair. -/
theorem update_calendar_event_body_spec :
    (∀ (u : CalendarEventUpdate) (k : String) (v : UpdateValue),
      (k, v) ∈ update_calendar_event_body u ↔
        ((k = "start" ∧ u.start.map UpdateValue.edt = some v) ∨
         (k = "end" ∧ u.ending.map UpdateValue.edt = some v) ∨
         (k = "summary" ∧ u.summary.map UpdateValue.str = some v) ∨
         (k = "description" ∧ u.description.map UpdateValue.str = some v) ∨
         (k = "location" ∧ u.location.map UpdateValue.str = some v))) ∧
    update_calendar_event_body { summary := some "New Title" } =
      [("summary", UpdateValue.str "New Title")] := by
  refine ⟨fun u k v => ?_, rfl⟩
  rcases u with ⟨s, e, su, d, l⟩
  cases s <;> cases e <;> cases su <;> cases d <;> cases l <;>
    simp [update_calendar_event_body] <;> aesop

/-! ## Message normalization (main.py lines 62-85) -/

/-- One entry of `message["payload"]["headers"]`; a missing "name" or "value"
key is modelled by the empty string, matching the `.get(..., "")` defaults on
lines 69-70. -/
structure Header where
  name : String
  value : String
  deriving DecidableEq

/-- The raw Gmail message as consumed by `get_message_data`: its id, snippet
(`message.get("snippet", "")`), and payload headers. -/
structure RawMessage where
  id : String
  snippet : String
  headers : List Header
  deriving DecidableEq

/-- The `EmailSummary` dict built on lines 80-85. The `from` key is named
`fromEmail` because `from` is reserved in Lean. -/
structure EmailSummary where
  email_id : String
  snippet : String
  subject : String
  fromEmail : String
  deriving DecidableEq

/-- Tests whether a header's lowered name is "subject" (line 72). -/
def isSubjectHeader (h : Header) : Bool := pyLower h.name = "subject"

/-- Tests whether a header's lowered name is "from" (line 74). -/
def isFromHeader (h : Header) : Bool := pyLower h.name = "from"

/-- Lines 68-78 of `main.py`: the header scan loop with its two accumulators.
A "subject" header overwrites the subject accumulator; a "from" header
overwrites the from accumulator and, when both accumulators are then
non-empty, breaks out of the loop. -/
def getMessageDataScan : List Header → String → String → String × String
  | [], subject, from_email => (subject, from_email)
  | h :: rest, subject, from_email =>
    if isSubjectHeader h then
      getMessageDataScan rest h.value from_email
    else if isFromHeader h then
      if subject ≠ "" ∧ h.value ≠ "" then (subject, h.value)
      else getMessageDataScan rest subject h.value
    else
      getMessageDataScan rest subject from_email

/-- Lines 62-85 of `main.py`: `get_message_data`. -/
def get_message_data (msg : RawMessage) : EmailSummary :=
  let p := getMessageDataScan msg.headers "" ""
  { email_id := msg.id, snippet := msg.snippet, subject := p.1, fromEmail := p.2 }

/-- Value of the first header satisfying `p`, or "" when there is none. -/
def firstHeaderValue (p : Header → Bool) (hs : List Header) : String :=
  ((hs.filter p).head?.map Header.value).getD ""

theorem getMessageDataScan_no_interesting (hs : List Header)
    (hsub : hs.filter isSubjectHeader = [])
    (hfrom : hs.filter isFromHeader = []) (subject from_email : String) :
    getMessageDataScan hs subject from_email = (subject, from_email) := by
  induction hs generalizing subject from_email with
  | nil => rfl
  | cons h rest ih =>
    by_cases h1 : isSubjectHeader h
    · simp [List.filter_cons, h1] at hsub
    · by_cases h2 : isFromHeader h
      · simp [List.filter_cons, h2] at hfrom
      · rw [List.filter_cons_of_neg (by simpa using h1)] at hsub
        rw [List.filter_cons_of_neg (by simpa using h2)] at hfrom
        simpa [getMessageDataScan, h1, h2] using ih hsub hfrom subject from_email

theorem getMessageDataScan_no_subject (hs : List Header)
    (hsub : hs.filter isSubjectHeader = [])
    (hfrom : (hs.filter isFromHeader).length ≤ 1) (subject from_email : String) :
    getMessageDataScan hs subject from_email =
      (subject, (((hs.filter isFromHeader).head?.map Header.value).getD from_email)) := by
  induction hs generalizing from_email with
  | nil => rfl
  | cons h rest ih =>
    by_cases h1 : isSubjectHeader h
    · simp [List.filter_cons, h1] at hsub
    · rw [List.filter_cons_of_neg (by simpa using h1)] at hsub
      by_cases h2 : isFromHeader h
      · rw [List.filter_cons_of_pos (by simpa using h2)] at hfrom ⊢
        have hrest : rest.filter isFromHeader = [] := by
          rw [← List.length_eq_zero]
          simp only [List.length_cons] at hfrom
          omega
        have hdone := getMessageDataScan_no_interesting rest hsub hrest subject h.value
        by_cases h3 : subject ≠ "" ∧ h.value ≠ ""
        · simp [getMessageDataScan, h1, h2, h3]
        · simp [getMessageDataScan, h1, h2, h3, hdone]
      · rw [List.filter_cons_of_neg (by simpa using h2)] at hfrom ⊢
        simpa [getMessageDataScan, h1, h2] using ih hsub hfrom from_email

theorem getMessageDataScan_spec (hs : List Header)
    (hsub : (hs.filter isSubjectHeader).length ≤ 1)
    (hfrom : (hs.filter isFromHeader).length ≤ 1) (from_email : String) :
    getMessageDataScan hs "" from_email =
      ((((hs.filter isSubjectHeader).head?.map Header.value).getD ""),
       (((hs.filter isFromHeader).head?.map Header.value).getD from_email)) := by
  induction hs generalizing from_email with
  | nil => rfl
  | cons h rest ih =>
    by_cases h1 : isSubjectHeader h
    · rw [List.filter_cons_of_pos (by simpa using h1)] at hsub ⊢
      have hrest : rest.filter isSubjectHeader = [] := by
        rw [← List.length_eq_zero]
        simp only [List.length_cons] at hsub
        omega
      have hno2 : ¬ isFromHeader h := by
        intro hcontra
        have e1 : pyLower h.name = "subject" := by simpa [isSubjectHeader] using h1
        have e2 : pyLower h.name = "from" := by simpa [isFromHeader] using hcontra
        rw [e1] at e2
        exact absurd e2 (by decide)
      rw [List.filter_cons_of_neg (by simpa using hno2)] at hfrom ⊢
      simp only [getMessageDataScan, h1, if_true]
      rw [getMessageDataScan_no_subject rest hrest hfrom h.value from_email]
      simp
    · rw [List.filter_cons_of_neg (by simpa using h1)] at hsub ⊢
      by_cases h2 : isFromHeader h
      · rw [List.filter_cons_of_pos (by simpa using h2)] at hfrom ⊢
        have hrest : rest.filter isFromHeader = [] := by
          rw [← List.length_eq_zero]
          simp only [List.length_cons] at hfrom
          omega
        have hcond : ¬ (("" : String) ≠ "" ∧ h.value ≠ "") := by simp
        simp only [getMessageDataScan, h1, if_false, h2, if_true, hcond]
        rw [ih hsub (by simp [hrest]) h.value]
        simp [hrest]
      · rw [List.filter_cons_of_neg (by simpa using h2)] at hfrom ⊢
        simpa [getMessageDataScan, h1, h2] using ih hsub hfrom from_email

/-- C1 counterexample: with a repeated header name the first occurrence does
not win. For headers Subject:"", From:"F1", Subject:"A", From:"F2" the claim
predicts subject "" (the first subject value) and from "F1", but the code
returns subject "A" and from "F2". -/
theorem get_message_data_first_wins_false :
    get_message_data
        ⟨"m1", "s",
         [⟨"Subject", ""⟩, ⟨"From", "F1"⟩, ⟨"Subject", "A"⟩, ⟨"From", "F2"⟩]⟩ =
      ⟨"m1", "s", "A", "F2"⟩ ∧
    ¬ (("A" : String) = "" ∧ ("F2" : String) = "F1") := by
  constructor
  · decide
  · decide

/-- C1 (amended): when each of "subject" and "from" occurs at most once among
the header names (case-insensitively), `get_message_data` returns those
headers' values regardless of the order in which the headers appear, and a
header that is absent yields the empty string rather than an error; when a
name repeats, the value returned is the last occurrence processed before the
scan stops, not the first. -/
theorem get_message_data_spec (msg : RawMessage)
    (hsub : (msg.headers.filter isSubjectHeader).length ≤ 1)
    (hfrom : (msg.headers.filter isFromHeader).length ≤ 1) :
    (get_message_data msg).subject = firstHeaderValue isSubjectHeader msg.headers ∧
    (get_message_data msg).fromEmail = firstHeaderValue isFromHeader msg.headers ∧
    (get_message_data msg).email_id = msg.id ∧
    (get_message_data msg).snippet = msg.snippet := by
  have h := getMessageDataScan_spec msg.headers hsub hfrom ""
  refine ⟨?_, ?_, rfl, rfl⟩
  · simp [get_message_data, h, firstHeaderValue]
  · simp [get_message_data, h, firstHeaderValue]

theorem get_message_data_spec_witness :
    (get_message_data ⟨"m2", "sn", [⟨"From", "F"⟩, ⟨"X-Mailer", "o"⟩, ⟨"SUBJECT", "S"⟩]⟩).subject
      = "S" ∧
    (get_message_data ⟨"m2", "sn", [⟨"From", "F"⟩, ⟨"X-Mailer", "o"⟩, ⟨"SUBJECT", "S"⟩]⟩).fromEmail
      = "F" := by
  have h := get_message_data_spec
    ⟨"m2", "sn", [⟨"From", "F"⟩, ⟨"X-Mailer", "o"⟩, ⟨"SUBJECT", "S"⟩]⟩
    (by decide) (by decide)
  exact ⟨h.1.trans (by decide), h.2.1.trans (by decide)⟩

/-! ## Datetime strings

The calendar handlers parse and render RFC3339 datetime strings through
`datetime.fromisoformat` / `datetime.isoformat`. The parser below models
`fromisoformat` on the sublanguage this service exchanges with the remote
API: `YYYY-MM-DD` and `YYYY-MM-DDTHH:MM:SS` optionally followed by a
`±HH:MM` offset (fractional seconds do not occur in this service's data;
a string outside the sublanguage parses to `none`, modelling ValueError). -/

/-- Decimal digit character for `d < 10`. -/
def digitChar (d : Nat) : Char := Char.ofNat (48 + d)

/-- Two-digit zero-padded rendering (for `n < 100`). -/
def pad2 (n : Nat) : List Char := [digitChar (n / 10), digitChar (n % 10)]

/-- Four-digit zero-padded rendering (for `n < 10000`). -/
def pad4 (n : Nat) : List Char :=
  [digitChar (n / 1000), digitChar (n / 100 % 10), digitChar (n / 10 % 10), digitChar (n % 10)]

/-- Numeric value of a decimal digit character. -/
def digitVal (c : Char) : Option Nat :=
  if c.isDigit then some (c.toNat - 48) else none

/-- Read exactly two digit characters. -/
def parse2 : List Char → Option (Nat × List Char)
  | c1 :: c2 :: rest =>
    match digitVal c1, digitVal c2 with
    | some d1, some d2 => some (d1 * 10 + d2, rest)
    | _, _ => none
  | _ => none

/-- Read exactly four digit characters. -/
def parse4 : List Char → Option (Nat × List Char)
  | c1 :: c2 :: c3 :: c4 :: rest =>
    match digitVal c1, digitVal c2, digitVal c3, digitVal c4 with
    | some d1, some d2, some d3, some d4 =>
      some (d1 * 1000 + d2 * 100 + d3 * 10 + d4, rest)
    | _, _, _, _ => none
  | _ => none

/-- Read one expected character. -/
def expectChar (c : Char) : List Char → Option (List Char)
  | x :: rest => if x = c then some rest else none
  | [] => none

/-- A calendar date (`datetime.date`). -/
structure Date where
  year : Nat
  month : Nat
  day : Nat
  deriving DecidableEq

/-- A parsed `datetime.datetime`: date and time fields plus the UTC offset in
minutes carried by its `tzinfo` (none for a naive datetime). Microseconds are
zero throughout this service's data and are omitted. -/
structure PyDateTime where
  year : Nat
  month : Nat
  day : Nat
  hour : Nat
  minute : Nat
  second : Nat
  offsetMinutes : Option Int
  deriving DecidableEq

def isLeapYear (y : Nat) : Bool :=
  (y % 4 = 0 ∧ y % 100 ≠ 0) ∨ y % 400 = 0

def daysInMonth (y m : Nat) : Nat :=
  if m = 2 then (if isLeapYear y then 29 else 28)
  else if m = 4 ∨ m = 6 ∨ m = 9 ∨ m = 11 then 30
  else 31

/-- Parse the tail after the seconds field: empty (naive datetime) or a
`±HH:MM` UTC offset consuming the rest of the string. -/
def parseOffsetTail : List Char → Option (Option Int)
  | [] => some none
  | c :: rest =>
    match (if c = '+' then some 1 else if c = '-' then some (-1) else none : Option Int) with
    | none => none
    | some sign =>
      match parse2 rest with
      | none => none
      | some (oh, rest1) =>
        match expectChar ':' rest1 with
        | none => none
        | some rest2 =>
          match parse2 rest2 with
          | none => none
          | some (om, rest3) =>
            if rest3 = [] ∧ oh ≤ 23 ∧ om ≤ 59 then
              some (some (sign * (60 * (oh : Int) + (om : Int))))
            else none

/-- Models `datetime.datetime.fromisoformat` on this service's datetime
sublanguage (see the section comment); `none` models ValueError. -/
def fromisoformatL (l : List Char) : Option PyDateTime :=
  match parse4 l with
  | none => none
  | some (y, l1) =>
    match expectChar '-' l1 with
    | none => none
    | some l2 =>
      match parse2 l2 with
      | none => none
      | some (mo, l3) =>
        match expectChar '-' l3 with
        | none => none
        | some l4 =>
          match parse2 l4 with
          | none => none
          | some (d, l5) =>
            if 1 ≤ mo ∧ mo ≤ 12 ∧ 1 ≤ d ∧ d ≤ daysInMonth y mo then
              match l5 with
              | [] => some ⟨y, mo, d, 0, 0, 0, none⟩
              | sep :: l6 =>
                if sep = 'T' then
                  match parse2 l6 with
                  | none => none
                  | some (h, l7) =>
                    match expectChar ':' l7 with
                    | none => none
                    | some l8 =>
                      match parse2 l8 with
                      | none => none
                      | some (mi, l9) =>
                        match expectChar ':' l9 with
                        | none => none
                        | some l10 =>
                          match parse2 l10 with
                          | none => none
                          | some (s, l11) =>
                            if h ≤ 23 ∧ mi ≤ 59 ∧ s ≤ 59 then
                              match parseOffsetTail l11 with
                              | none => none
                              | some off => some ⟨y, mo, d, h, mi, s, off⟩
                            else none
                else none
            else none

/-- Rendering of a UTC offset of `m` minutes as `±HH:MM`, as
`datetime.isoformat` prints it. -/
def offsetToChars (m : Int) : List Char :=
  (if m < 0 then '-' else '+') :: (pad2 (m.natAbs / 60) ++ ':' :: pad2 (m.natAbs % 60))

/-- Models `datetime.isoformat()` (microseconds zero, so omitted). -/
def isoformatL (dt : PyDateTime) : List Char :=
  pad4 dt.year ++ '-' :: (pad2 dt.month ++ '-' :: (pad2 dt.day ++
    'T' :: (pad2 dt.hour ++ ':' :: (pad2 dt.minute ++ ':' :: (pad2 dt.second ++
      (match dt.offsetMinutes with
       | none => []
       | some m => offsetToChars m))))))

def isoformat (dt : PyDateTime) : String := String.mk (isoformatL dt)

/-- Models Python `s.replace("Z", "+00:00")` (line 235 and line 347): every
occurrence of the single character "Z" is replaced. -/
def replaceZL : List Char → List Char
  | [] => []
  | c :: rest => (if c = 'Z' then "+00:00".data else [c]) ++ replaceZL rest

def pyReplaceZ (s : String) : String := String.mk (replaceZL s.data)

/-- Models `s.split(":")[0]`: the characters before the first colon. -/
def splitHeadColonL : List Char → List Char
  | [] => []
  | c :: rest => if c = ':' then [] else c :: splitHeadColonL rest

def pySplitHeadColon (s : String) : String := String.mk (splitHeadColonL s.data)

def digitsToNatAux : List Char → Nat → Option Nat
  | [], acc => some acc
  | c :: rest, acc =>
    match digitVal c with
    | some d => digitsToNatAux rest (acc * 10 + d)
    | none => none

/-- Digits of a nonempty all-digit string, as a number. -/
def digitsToNat : List Char → Option Nat
  | [] => none
  | l => digitsToNatAux l 0

/-- Models Python `int(s)` on the strings this program feeds it: an optional
sign followed by decimal digits; anything else raises ValueError (`none`). -/
def pythonIntL : List Char → Option Int
  | '+' :: rest => (digitsToNat rest).map (fun n => (n : Int))
  | '-' :: rest => (digitsToNat rest).map (fun n => -(n : Int))
  | l => (digitsToNat l).map (fun n => (n : Int))

/-- Lines 345-355 of `main.py`: `adjust_datetime`. Parses the input datetime
(after replacing "Z"), takes `int()` of the part of the timezone string
before the first colon, builds a whole-hour `timezone` (which Python rejects
outside the open interval of ±24 hours), combines today's date with the
parsed wall-clock time under that offset, and renders it back to ISO format.
`today` is the current UTC date captured on line 340. -/
def adjust_datetime (dt_str timezone_str : String) (today : Date) : Except String String :=
  match fromisoformatL (pyReplaceZ dt_str).data with
  | none => .error "ValueError: invalid isoformat string"
  | some dt =>
    match pythonIntL (pySplitHeadColon timezone_str).data with
    | none => .error "ValueError: invalid literal for int with base 10"
    | some hrs =>
      if 24 ≤ hrs.natAbs then
        .error "ValueError: offset must be strictly between -24 and 24 hours"
      else
        .ok (isoformat
          ⟨today.year, today.month, today.day, dt.hour, dt.minute, dt.second, some (60 * hrs)⟩)

/-! ## Parse/render lemmas -/

theorem digitVal_digitChar (d : Nat) (hd : d < 10) : digitVal (digitChar d) = some d := by
  interval_cases d <;> decide

theorem digitChar_ne (d : Nat) (hd : d < 10) :
    digitChar d ≠ 'Z' ∧ digitChar d ≠ ':' ∧ digitChar d ≠ 'T' ∧
    digitChar d ≠ '-' ∧ digitChar d ≠ '+' := by
  interval_cases d <;> decide

theorem parse2_pad2 (n : Nat) (h : n < 100) (rest : List Char) :
    parse2 (pad2 n ++ rest) = some (n, rest) := by
  have h1 : n / 10 < 10 := by omega
  have h2 : n % 10 < 10 := by omega
  have hn : n / 10 * 10 + n % 10 = n := by omega
  simp [pad2, parse2, digitVal_digitChar _ h1, digitVal_digitChar _ h2, hn]

theorem parse4_pad4 (n : Nat) (h : n < 10000) (rest : List Char) :
    parse4 (pad4 n ++ rest) = some (n, rest) := by
  have h1 : n / 1000 < 10 := by omega
  have h2 : n / 100 % 10 < 10 := by omega
  have h3 : n / 10 % 10 < 10 := by omega
  have h4 : n % 10 < 10 := by omega
  have hn : n / 1000 * 1000 + n / 100 % 10 * 100 + n / 10 % 10 * 10 + n % 10 = n := by omega
  simp [pad4, parse4, digitVal_digitChar _ h1, digitVal_digitChar _ h2,
    digitVal_digitChar _ h3, digitVal_digitChar _ h4, hn]

theorem expectChar_self (c : Char) (rest : List Char) :
    expectChar c (c :: rest) = some rest := by
  simp [expectChar]

theorem parse2_pad2_nil (n : Nat) (h : n < 100) : parse2 (pad2 n) = some (n, []) := by
  have := parse2_pad2 n h []
  simpa using this

theorem parseOffsetTail_offsetToChars (m : Int) (hm : m.natAbs ≤ 1439) :
    parseOffsetTail (offsetToChars m) = some (some m) := by
  have hdiv : m.natAbs / 60 < 100 := by omega
  have hdivle : m.natAbs / 60 ≤ 23 := by omega
  have hmod : m.natAbs % 60 ≤ 59 := by omega
  have hmod2 : m.natAbs % 60 < 100 := by omega
  have hc1 : (('-' : Char) = '+') = False := by decide
  by_cases hneg : m < 0
  · have harith : (-1 : Int) * (60 * ((m.natAbs / 60 : Nat) : Int) + ((m.natAbs % 60 : Nat) : Int)) = m := by
      omega
    simp only [offsetToChars, if_pos hneg, parseOffsetTail, parse2_pad2 _ hdiv,
      expectChar_self, parse2_pad2_nil _ hmod2, hdivle, hmod, harith, if_true, if_false, hc1,
      and_self, true_and, and_true, eq_self_iff_true]
  · have harith : (1 : Int) * (60 * ((m.natAbs / 60 : Nat) : Int) + ((m.natAbs % 60 : Nat) : Int)) = m := by
      omega
    simp only [offsetToChars, if_neg hneg, parseOffsetTail, parse2_pad2 _ hdiv,
      expectChar_self, parse2_pad2_nil _ hmod2, hdivle, hmod, harith, if_true, and_true,
      and_self, true_and, eq_self_iff_true]

theorem daysInMonth_le (y m : Nat) : daysInMonth y m ≤ 31 := by
  unfold daysInMonth
  split
  · split <;> omega
  · split <;> omega

theorem fromisoformatL_isoformatL (y mo d h mi s : Nat) (m : Int)
    (hy : y ≤ 9999) (hmo1 : 1 ≤ mo) (hmo2 : mo ≤ 12)
    (hd1 : 1 ≤ d) (hd2 : d ≤ daysInMonth y mo)
    (hh : h ≤ 23) (hmi : mi ≤ 59) (hs : s ≤ 59) (hm : m.natAbs ≤ 1439) :
    fromisoformatL (isoformatL ⟨y, mo, d, h, mi, s, some m⟩) =
      some ⟨y, mo, d, h, mi, s, some m⟩ := by
  simp only [isoformatL, fromisoformatL, parse4_pad4 y (show y < 10000 by omega),
    expectChar_self, parse2_pad2 mo (show mo < 100 by omega),
    parse2_pad2 d (show d < 100 by have := daysInMonth_le y mo; omega),
    parse2_pad2 h (show h < 100 by omega),
    parse2_pad2 mi (show mi < 100 by omega), parse2_pad2 s (show s < 100 by omega),
    parseOffsetTail_offsetToChars m hm,
    hmo1, hmo2, hd1, hd2, hh, hmi, hs, and_self, and_true, true_and, if_true]

theorem replaceZL_cons_ne (c : Char) (h : c ≠ 'Z') (l : List Char) :
    replaceZL (c :: l) = c :: replaceZL l := by
  simp [replaceZL, h]

theorem replaceZL_append (a b : List Char) :
    replaceZL (a ++ b) = replaceZL a ++ replaceZL b := by
  induction a with
  | nil => rfl
  | cons c rest ih => simp [replaceZL, ih]

theorem replaceZL_pad2 (n : Nat) (h : n < 100) : replaceZL (pad2 n) = pad2 n := by
  have h1 := digitChar_ne (n / 10) (by omega)
  have h2 := digitChar_ne (n % 10) (by omega)
  simp [pad2, replaceZL, h1.1, h2.1]

theorem replaceZL_pad4 (n : Nat) (h : n < 10000) : replaceZL (pad4 n) = pad4 n := by
  have h1 := digitChar_ne (n / 1000) (by omega)
  have h2 := digitChar_ne (n / 100 % 10) (by omega)
  have h3 := digitChar_ne (n / 10 % 10) (by omega)
  have h4 := digitChar_ne (n % 10) (by omega)
  simp [pad4, replaceZL, h1.1, h2.1, h3.1, h4.1]

theorem replaceZL_offsetToChars (m : Int) (hm : m.natAbs ≤ 1439) :
    replaceZL (offsetToChars m) = offsetToChars m := by
  have hdiv : m.natAbs / 60 < 100 := by omega
  have hmod : m.natAbs % 60 < 100 := by omega
  have r1 := replaceZL_cons_ne '-' (by decide)
  have r2 := replaceZL_cons_ne '+' (by decide)
  have r3 := replaceZL_cons_ne ':' (by decide)
  by_cases hneg : m < 0 <;>
    simp only [offsetToChars, hneg, if_true, if_false, r1, r2, r3, replaceZL_append,
      replaceZL_pad2 _ hdiv, replaceZL_pad2 _ hmod]

theorem replaceZL_isoformatL (y mo d h mi s : Nat) (m : Int)
    (hy : y ≤ 9999) (hmo : mo ≤ 12) (hd : d ≤ 31) (hh : h ≤ 23) (hmi : mi ≤ 59)
    (hs : s ≤ 59) (hm : m.natAbs ≤ 1439) :
    replaceZL (isoformatL ⟨y, mo, d, h, mi, s, some m⟩) =
      isoformatL ⟨y, mo, d, h, mi, s, some m⟩ := by
  have r1 := replaceZL_cons_ne '-' (by decide)
  have r2 := replaceZL_cons_ne ':' (by decide)
  have r3 := replaceZL_cons_ne 'T' (by decide)
  simp only [isoformatL, replaceZL_append, r1, r2, r3,
    replaceZL_pad4 y (by omega), replaceZL_pad2 mo (by omega), replaceZL_pad2 d (by omega),
    replaceZL_pad2 h (by omega), replaceZL_pad2 mi (by omega), replaceZL_pad2 s (by omega),
    replaceZL_offsetToChars m hm]

theorem digitsToNat_pad2 (n : Nat) (h : n < 100) : digitsToNat (pad2 n) = some n := by
  have h1 : n / 10 < 10 := by omega
  have h2 : n % 10 < 10 := by omega
  have hn : n / 10 * 10 + n % 10 = n := by omega
  simp [pad2, digitsToNat, digitsToNatAux, digitVal_digitChar _ h1, digitVal_digitChar _ h2, hn]

theorem splitHeadColonL_offsetToChars (m : Int) (hm : m.natAbs ≤ 1439) :
    splitHeadColonL (offsetToChars m) =
      (if m < 0 then '-' else '+') :: pad2 (m.natAbs / 60) := by
  have h1 := digitChar_ne (m.natAbs / 60 / 10) (by omega)
  have h2 := digitChar_ne (m.natAbs / 60 % 10) (by omega)
  by_cases hneg : m < 0 <;>
    simp [offsetToChars, hneg, pad2, splitHeadColonL, h1.2.1, h2.2.1]

theorem pythonIntL_split_offset (oh : Int) (hoh : oh.natAbs ≤ 23) :
    pythonIntL (splitHeadColonL (offsetToChars (60 * oh))) = some oh := by
  have habs : (60 * oh).natAbs = 60 * oh.natAbs := by
    simp [Int.natAbs_mul]
  have hdiv : (60 * oh).natAbs / 60 = oh.natAbs := by omega
  have hm : (60 * oh).natAbs ≤ 1439 := by omega
  rw [splitHeadColonL_offsetToChars _ hm, hdiv]
  by_cases hneg : 60 * oh < 0
  · rw [if_pos hneg]
    have h100 : oh.natAbs < 100 := by omega
    have hstep : pythonIntL ('-' :: pad2 oh.natAbs) =
        (digitsToNat (pad2 oh.natAbs)).map (fun n => -(n : Int)) := rfl
    rw [hstep, digitsToNat_pad2 _ h100]
    show some (-((oh.natAbs : Nat) : Int)) = some oh
    congr 1
    omega
  · rw [if_neg hneg]
    have h100 : oh.natAbs < 100 := by omega
    have hstep : pythonIntL ('+' :: pad2 oh.natAbs) =
        (digitsToNat (pad2 oh.natAbs)).map (fun n => (n : Int)) := rfl
    rw [hstep, digitsToNat_pad2 _ h100]
    show some ((oh.natAbs : Nat) : Int) = some oh
    congr 1
    omega

/-- C2: for a create-event start.dateTime that is an RFC3339 datetime with a
whole-hour offset, with start.timeZone the matching "±HH:MM" offset string,
the adjusted dateTime keeps the wall-clock time-of-day and the offset and
replaces the date component by the current UTC date. -/
theorem adjust_datetime_spec (dtStr tzStr : String) (y mo d h mi s : Nat) (oh : Int)
    (today : Date)
    (hdt : dtStr = isoformat ⟨y, mo, d, h, mi, s, some (60 * oh)⟩)
    (htz : tzStr = String.mk (offsetToChars (60 * oh)))
    (hy : y ≤ 9999) (hmo1 : 1 ≤ mo) (hmo2 : mo ≤ 12)
    (hd1 : 1 ≤ d) (hd2 : d ≤ daysInMonth y mo)
    (hh : h ≤ 23) (hmi : mi ≤ 59) (hs : s ≤ 59) (hoh : oh.natAbs ≤ 23) :
    adjust_datetime dtStr tzStr today =
      .ok (isoformat ⟨today.year, today.month, today.day, h, mi, s, some (60 * oh)⟩) := by
  subst hdt htz
  have habs : (60 * oh).natAbs = 60 * oh.natAbs := by simp [Int.natAbs_mul]
  have hm : (60 * oh).natAbs ≤ 1439 := by omega
  have h1 : (pyReplaceZ (isoformat ⟨y, mo, d, h, mi, s, some (60 * oh)⟩)).data =
      isoformatL ⟨y, mo, d, h, mi, s, some (60 * oh)⟩ := by
    show replaceZL (isoformatL _) = _
    exact replaceZL_isoformatL y mo d h mi s (60 * oh) hy hmo2
      (le_trans hd2 (daysInMonth_le y mo)) hh hmi hs hm
  have h2 : (pySplitHeadColon (String.mk (offsetToChars (60 * oh)))).data =
      splitHeadColonL (offsetToChars (60 * oh)) := rfl
  simp only [adjust_datetime, h1,
    fromisoformatL_isoformatL y mo d h mi s (60 * oh) hy hmo1 hmo2 hd1 hd2 hh hmi hs hm,
    h2, pythonIntL_split_offset oh hoh]
  rw [if_neg (by omega)]

theorem adjust_datetime_spec_witness :
    adjust_datetime "2025-09-22T09:00:00+08:00" "+08:00" ⟨2025, 10, 1⟩ =
      .ok "2025-10-01T09:00:00+08:00" := by
  have h := adjust_datetime_spec "2025-09-22T09:00:00+08:00" "+08:00"
    2025 9 22 9 0 0 8 ⟨2025, 10, 1⟩ (by decide) (by decide) (by omega) (by omega)
    (by omega) (by omega) (by decide) (by omega) (by omega) (by omega) (by decide)
  have hren : isoformat ⟨2025, 10, 1, 9, 0, 0, some (60 * 8)⟩ =
      "2025-10-01T09:00:00+08:00" := by decide
  rw [hren] at h
  exact h

/-! ## Event listing (main.py lines 192-252) -/

/-- The "start"/"end" objects of a raw calendar event; `none` models an
absent key (`.get` returns None). -/
structure RawEventTime where
  dateTime : Option String := none
  date : Option String := none
  deriving DecidableEq

/-- A raw event item returned by the remote calendar list call. The `end`
key is named `ending` because `end` is reserved in Lean. -/
structure RawEvent where
  id : Option String := none
  summary : Option String := none
  start : RawEventTime
  ending : RawEventTime
  deriving DecidableEq

/-- The simplified event dict built on lines 240-247. -/
structure SimplifiedEvent where
  eventId : Option String
  summary : String
  start : String
  ending : Option String
  deriving DecidableEq

/-- Python `a or b` on optional strings: the first truthy operand
(None and "" are falsy). -/
def pyOrStr (a b : Option String) : Option String :=
  match a with
  | some s => if s ≠ "" then some s else b
  | none => b

/-- Line 233: `event["start"].get("dateTime") or event["start"].get("date")`. -/
def eventStartValue (e : RawEvent) : Option String :=
  pyOrStr e.start.dateTime e.start.date

/-- The event's calendar date as computed on lines 234-236: parse the start
value after replacing "Z" with "+00:00" and take the date part. -/
def eventDateOf (startStr : String) : Option Date :=
  (fromisoformatL (pyReplaceZ startStr).data).map (fun dt => ⟨dt.year, dt.month, dt.day⟩)

/-- Lines 230-249 of `main.py`: the loop of `get_calendar_events` over the raw
events, filtering to events whose computed date equals `today` (the current
UTC date captured on line 205). A start value of None raises AttributeError
and an unparsable one raises ValueError; either aborts the request (HTTP
500), modelled by `.error`. -/
def get_calendar_events : List RawEvent → Date → Except String (List SimplifiedEvent)
  | [], _ => .ok []
  | e :: rest, today =>
    match eventStartValue e with
    | none => .error "AttributeError: NoneType object has no attribute replace"
    | some startv =>
      match fromisoformatL (pyReplaceZ startv).data with
      | none => .error "ValueError: invalid isoformat string"
      | some dt =>
        match get_calendar_events rest today with
        | .error msg => .error msg
        | .ok tail =>
          if (⟨dt.year, dt.month, dt.day⟩ : Date) = today then
            .ok ({ eventId := e.id
                   summary := e.summary.getD "No Title"
                   start := startv
                   ending := pyOrStr e.ending.dateTime e.ending.date } :: tail)
          else .ok tail

/-- C3: whenever the events listing succeeds, every event in the response has
a computed calendar date (parse of its start value, trailing "Z" read as
"+00:00", date part taken) equal to the current UTC date. -/
theorem get_calendar_events_today_only (events : List RawEvent) (today : Date)
    (out : List SimplifiedEvent)
    (hok : get_calendar_events events today = .ok out) :
    ∀ se ∈ out, eventDateOf se.start = some today := by
  induction events generalizing out with
  | nil =>
    simp only [get_calendar_events, Except.ok.injEq] at hok
    subst hok
    simp
  | cons e rest ih =>
    cases hstart : eventStartValue e with
    | none =>
      simp only [get_calendar_events, hstart] at hok
      exact Except.noConfusion hok
    | some startv =>
      cases hdt : fromisoformatL (pyReplaceZ startv).data with
      | none =>
        simp only [get_calendar_events, hstart, hdt] at hok
        exact Except.noConfusion hok
      | some dt =>
        cases htail : get_calendar_events rest today with
        | error msg =>
          simp only [get_calendar_events, hstart, hdt, htail] at hok
          exact Except.noConfusion hok
        | ok tail =>
          simp only [get_calendar_events, hstart, hdt, htail] at hok
          by_cases hdate : (⟨dt.year, dt.month, dt.day⟩ : Date) = today
          · rw [if_pos hdate, Except.ok.injEq] at hok
            subst hok
            intro se hse
            rcases List.mem_cons.mp hse with hhead | htailmem
            · subst hhead
              simp only [eventDateOf, hdt]
              simpa using hdate
            · exact ih tail htail se htailmem
          · rw [if_neg hdate, Except.ok.injEq] at hok
            subst hok
            exact ih _ htail

theorem get_calendar_events_today_only_witness :
    eventDateOf "2025-10-01T09:00:00+08:00" = some ⟨2025, 10, 1⟩ := by
  have h := get_calendar_events_today_only
    [{ id := some "e1", summary := some "Standup",
       start := { dateTime := some "2025-10-01T09:00:00+08:00" },
       ending := { dateTime := some "2025-10-01T10:00:00+08:00" } }]
    ⟨2025, 10, 1⟩
    [{ eventId := some "e1", summary := "Standup", start := "2025-10-01T09:00:00+08:00",
       ending := some "2025-10-01T10:00:00+08:00" }]
    (by rfl)
  exact h { eventId := some "e1", summary := "Standup",
            start := "2025-10-01T09:00:00+08:00",
            ending := some "2025-10-01T10:00:00+08:00" } (by simp)

/-! ## Event creation (main.py lines 307-399) -/

/-- Pydantic `CalendarEventCreate` model (lines 271-290), restricted to the
fields the time adjustment reads; attendees/reminders/recurrence are passed
through untouched and are omitted here. The `end` field is named `ending`
because `end` is reserved in Lean. -/
structure CalendarEventCreate where
  summary : String
  location : Option String := none
  description : Option String := none
  start : EventDateTime
  ending : EventDateTime
  deriving DecidableEq

/-- Lines 358-362 of `main.py`: adjust the start dateTime (when present) using
start.timeZone, defaulting to "Asia/Kuala_Lumpur". -/
def adjust_start (ev : CalendarEventCreate) (today : Date) : Except String CalendarEventCreate :=
  match ev.start.dateTime with
  | none => .ok ev
  | some dts =>
    match adjust_datetime dts (ev.start.timeZone.getD "Asia/Kuala_Lumpur") today with
    | .error e => .error e
    | .ok adj => .ok { ev with start := { ev.start with dateTime := some adj } }

/-- Lines 364-372 of `main.py`: adjust the end dateTime (when present) using
end.timeZone, falling back to start.timeZone, then to "Asia/Kuala_Lumpur". -/
def adjust_end (ev : CalendarEventCreate) (today : Date) : Except String CalendarEventCreate :=
  match ev.ending.dateTime with
  | none => .ok ev
  | some dte =>
    match adjust_datetime dte
        (ev.ending.timeZone.getD (ev.start.timeZone.getD "Asia/Kuala_Lumpur")) today with
    | .error e => .error e
    | .ok adj => .ok { ev with ending := { ev.ending with dateTime := some adj } }

/-- Lines 338-372 of `main.py`: the body-adjustment phase of
`create_calendar_event` (start first, then end, as the handler mutates
`event_dict` in that order). -/
def create_calendar_event_body (ev : CalendarEventCreate) (today : Date) :
    Except String CalendarEventCreate :=
  match adjust_start ev today with
  | .error e => .error e
  | .ok ev1 => adjust_end ev1 today

/-- C5 counterexample: with the named-zone timezone string of the handler's
own docstring example, the adjustment raises ValueError (int() of
"Asia/Kuala_Lumpur") instead of producing an adjusted datetime. -/
theorem adjust_datetime_named_zone_fails :
    adjust_datetime "2025-09-22T09:00:00+08:00" "Asia/Kuala_Lumpur" ⟨2025, 10, 1⟩ =
      .error "ValueError: invalid literal for int with base 10" := by rfl

/-- C5 (amended): when adjusting end.dateTime the timezone string used is
end.timeZone when present, otherwise start.timeZone when present, otherwise
the fixed default "Asia/Kuala_Lumpur"; but for a named-zone timezone string
(whose part before the first colon is not an integer literal) the adjustment
raises an error, so the request fails instead of producing an adjusted
datetime. -/
theorem adjust_end_spec (ev : CalendarEventCreate) (today : Date)
    (dte tzE tzS : String)
    (hend : ev.ending.dateTime = some dte) :
    (ev.ending.timeZone = some tzE →
      adjust_end ev today = (adjust_datetime dte tzE today).map
        (fun adj => { ev with ending := { ev.ending with dateTime := some adj } })) ∧
    (ev.ending.timeZone = none → ev.start.timeZone = some tzS →
      adjust_end ev today = (adjust_datetime dte tzS today).map
        (fun adj => { ev with ending := { ev.ending with dateTime := some adj } })) ∧
    (ev.ending.timeZone = none → ev.start.timeZone = none →
      adjust_end ev today = (adjust_datetime dte "Asia/Kuala_Lumpur" today).map
        (fun adj => { ev with ending := { ev.ending with dateTime := some adj } })) ∧
    (∀ r, adjust_datetime dte "Asia/Kuala_Lumpur" today ≠ .ok r) := by
  have hnamed : ∀ r, adjust_datetime dte "Asia/Kuala_Lumpur" today ≠ .ok r := by
    intro r hcontra
    cases hfi : fromisoformatL (pyReplaceZ dte).data with
    | none =>
      simp only [adjust_datetime, hfi] at hcontra
      exact Except.noConfusion hcontra
    | some dt =>
      have hint : pythonIntL (pySplitHeadColon "Asia/Kuala_Lumpur").data = none := by rfl
      simp only [adjust_datetime, hfi, hint] at hcontra
      exact Except.noConfusion hcontra
  refine ⟨fun htzE => ?_, fun htzE htzS => ?_, fun htzE htzS => ?_, hnamed⟩
  · simp only [adjust_end, hend, htzE, Option.getD_some]
    cases adjust_datetime dte tzE today <;> simp [Except.map]
  · simp only [adjust_end, hend, htzE, htzS, Option.getD_none, Option.getD_some]
    cases adjust_datetime dte tzS today <;> simp [Except.map]
  · simp only [adjust_end, hend, htzE, htzS, Option.getD_none]
    cases adjust_datetime dte "Asia/Kuala_Lumpur" today <;> simp [Except.map]

theorem adjust_end_spec_witness :
    adjust_end
      { summary := "Test Event",
        start := { dateTime := some "2025-09-22T09:00:00+08:00", timeZone := some "+08:00" },
        ending := { dateTime := some "2025-09-22T10:00:00+08:00" } }
      ⟨2025, 10, 1⟩ =
    .ok { summary := "Test Event",
          start := { dateTime := some "2025-09-22T09:00:00+08:00", timeZone := some "+08:00" },
          ending := { dateTime := some "2025-10-01T10:00:00+08:00" } } := by
  have h := (adjust_end_spec
    { summary := "Test Event",
      start := { dateTime := some "2025-09-22T09:00:00+08:00", timeZone := some "+08:00" },
      ending := { dateTime := some "2025-09-22T10:00:00+08:00" } }
    ⟨2025, 10, 1⟩ "2025-09-22T10:00:00+08:00" "+08:00" "+08:00" rfl).2.1 rfl rfl
  exact h.trans (by rfl)
